import Mathlib

/-!
Shallow embedding of `organizer/crawlers.py` (orgcrawler).

The module defines a `Crawler` that fans a user payload out over the cross
product of AWS accounts and regions, plus supporting value objects
(`CrawlerTimer`, `CrawlerRequest`, `CrawlerResponse`).

Modelling conventions:
* Python exceptions (`ValueError`) become `Except String`.
* `sys.exit(msg)` and re-raised exceptions in `load_account_credentials`
  become constructors of `LoadResult`.
* The thread fan-out of `utils.queue_threads` is modelled sequentially: each
  worker's effect on the shared crawler/request state is applied in list
  order (a fold / map).  External collaborators that are not part of this
  source file (`utils.all_regions()`, `org.get_account`, the accounts'
  `load_credentials`) are abstracted as parameters.
* Python truthiness of the `or` fall-backs in `__init__`
  (`kwargs.get(..) or default`) is modelled explicitly: `None` (omitted),
  `""` and `[]` are falsy.
* Timestamps from `time.perf_counter()` are modelled as integers; the
  Python truthiness test `if self.start_time:` is `start_time ≠ 0` on the
  stored value.
-/

def DEFAULT_REGION : String := "us-east-1"

/-- An AWS account object (`orgs.OrgAccount`); only its name is relevant
to the file under analysis. -/
structure OrgAccount where
  name : String
  deriving DecidableEq, Repr

/-- A value acceptable as one entry of the `accounts` keyword argument:
an account name string or an `OrgAccount` object. -/
inductive AcctRef
  | byName (s : String)
  | byAcct (a : OrgAccount)
  deriving DecidableEq, Repr

/-- The `accounts` keyword argument of `Crawler.__init__`: a string, an
`OrgAccount`, a list, or omitted (`None`). -/
inductive AccountsArg
  | str (s : String)
  | acct (a : OrgAccount)
  | list (l : List AcctRef)
  | omitted
  deriving DecidableEq, Repr

/-- The value held in `self.accounts` right before `validate_accounts`
runs (after the `or` fall-back, so never `None`). -/
inductive AccountsVal
  | str (s : String)
  | acct (a : OrgAccount)
  | list (l : List AcctRef)
  deriving DecidableEq, Repr

/-- The `regions` keyword argument of `Crawler.__init__`: a string, a list
of strings, or omitted (`None`). -/
inductive RegionsArg
  | str (s : String)
  | list (l : List String)
  | omitted
  deriving DecidableEq, Repr

/-- The value held in `self.regions` right before `validate_regions` runs. -/
inductive RegionsVal
  | str (s : String)
  | list (l : List String)
  deriving DecidableEq, Repr

/-- The `Org` collaborator (`organizer/orgs.py`, external to this file):
a default access role, the list of all accounts, and the account lookup
used by `validate_accounts`. -/
structure Org where
  access_role : String
  accounts : List OrgAccount
  get_account : AcctRef → OrgAccount

/-- Model of `self.accounts = kwargs.get('accounts') or org.accounts` — Python
truthiness: `None`, `''` and `[]` all select the fall-back. -/
def accounts_or_default (org : Org) (arg : AccountsArg) : AccountsVal :=
  match arg with
  | .omitted => .list (org.accounts.map AcctRef.byAcct)
  | .str s => if s = "" then .list (org.accounts.map AcctRef.byAcct) else .str s
  | .acct a => .acct a
  | .list l => if l = [] then .list (org.accounts.map AcctRef.byAcct) else .list l

/-- Model of `Crawler.validate_accounts`: wrap a bare string or `OrgAccount` into a
one-element list, then resolve every entry through `org.get_account`. -/
def validate_accounts (org : Org) (v : AccountsVal) : List OrgAccount :=
  match v with
  | .str s => [org.get_account (.byName s)]
  | .acct a => [org.get_account (.byAcct a)]
  | .list l => l.map org.get_account

/-- The `accounts` attribute produced by `Crawler.__init__`. -/
def crawler_init_accounts (org : Org) (arg : AccountsArg) : List OrgAccount :=
  validate_accounts org (accounts_or_default org arg)

/-- Model of `self.regions = kwargs.get('regions') or self.all_regions`. -/
def regions_or_default (all_regions : List String) (arg : RegionsArg) : RegionsVal :=
  match arg with
  | .omitted => .list all_regions
  | .str s => if s = "" then .list all_regions else .str s
  | .list l => if l = [] then .list all_regions else .list l

/-- Model of `Crawler.validate_regions`: the string `'GLOBAL'` becomes
`[DEFAULT_REGION]`; otherwise a bare string is wrapped into a list and
every entry must belong to `all_regions`, else
`ValueError('Invalid regions: ...')` listing the unknown entries. -/
def validate_regions (all_regions : List String) (v : RegionsVal) :
    Except String (List String) :=
  if v = .str "GLOBAL" then
    .ok [DEFAULT_REGION]
  else
    let regions := match v with
      | .str s => [s]
      | .list l => l
    let no_such_regions := regions.filter (fun r => decide (r ∉ all_regions))
    if no_such_regions = [] then
      .ok regions
    else
      .error ("Invalid regions: " ++ ", ".intercalate no_such_regions)

/-- The `regions` attribute produced by `Crawler.__init__`. -/
def crawler_init_regions (all_regions : List String) (arg : RegionsArg) :
    Except String (List String) :=
  validate_regions all_regions (regions_or_default all_regions arg)

/-- Model of `Crawler.update_regions`: assign the new value and re-run
`validate_regions`; the result is the new `regions` attribute (or the
raised `ValueError`). -/
def update_regions (all_regions : List String) (v : RegionsVal) :
    Except String (List String) :=
  validate_regions all_regions v

/-- Model of `CrawlerTimer`: `start_time`, `end_time` and `elapsed_time`, all
initially `None`.  Timestamps (`time.perf_counter()`) are modelled as
integers supplied at each call. -/
structure CrawlerTimer where
  start_time : Option Int
  end_time : Option Int
  elapsed_time : Option Int
  deriving DecidableEq, Repr

/-- A freshly constructed `CrawlerTimer`. -/
def CrawlerTimer.init : CrawlerTimer :=
  { start_time := none, end_time := none, elapsed_time := none }

/-- Model of `CrawlerTimer.start`: record the current clock reading. -/
def CrawlerTimer.start (t : CrawlerTimer) (now : Int) : CrawlerTimer :=
  { t with start_time := some now }

/-- Model of `CrawlerTimer.stop`: `if self.start_time:` (falsy for `None` and for a
zero reading) record the end time and the difference; otherwise do
nothing. -/
def CrawlerTimer.stop (t : CrawlerTimer) (now : Int) : CrawlerTimer :=
  match t.start_time with
  | none => t
  | some s => if s = 0 then t else
      { t with end_time := some now, elapsed_time := some (now - s) }

/-- Model of `CrawlerResponse`: per-(region, account) outcome of one payload run.
`payload_output` holds the returned value, `exc_info` a captured
exception.  (The per-response timer is irrelevant to the claims and
omitted from the record.) -/
structure CrawlerResponse where
  region : String
  account : OrgAccount
  payload_output : Option String
  exc_info : Option String
  deriving DecidableEq, Repr

/-- Model of `CrawlerRequest`: name of the payload, the collected responses, and
the `errors` flag (Python `None`-or-`True`, modelled as `Bool`). -/
structure CrawlerRequest where
  name : String
  responses : List CrawlerResponse
  errors : Bool
  deriving DecidableEq, Repr

/-- The `Crawler` state relevant to `execute` / `get_request`: resolved
accounts, validated regions, and the request history. -/
structure Crawler where
  access_role : String
  accounts : List OrgAccount
  regions : List String
  requests : List CrawlerRequest
  deriving DecidableEq, Repr

/-- A payload: a function of region and account that either returns a
value or raises. -/
def Payload : Type := String → OrgAccount → Except String String

/-- The inner worker `run_payload_in_account` of `Crawler.execute`: build
a `CrawlerResponse` for one (region, account) target, capturing either
the payload's return value or the raised exception. -/
def run_payload_in_account (payload : Payload) (target : String × OrgAccount) :
    CrawlerResponse :=
  match payload target.1 target.2 with
  | .ok out =>
      { region := target.1, account := target.2,
        payload_output := some out, exc_info := none }
  | .error e =>
      { region := target.1, account := target.2,
        payload_output := none, exc_info := some e }

/-- The `accounts_and_regions` list built by `Crawler.execute`: for each
region (outer loop), one entry per account (inner loop). -/
def accounts_and_regions : List String → List OrgAccount → List (String × OrgAccount)
  | [], _ => []
  | r :: rs, accounts =>
      accounts.map (fun a => (r, a)) ++ accounts_and_regions rs accounts

/-- The `CrawlerRequest` assembled by `Crawler.execute` before error
handling: one response per (region, account) target, and `errors` set
exactly when some worker captured an exception.  (The thread fan-out is
modelled sequentially; append order is completion order in the code and
enumeration order here.) -/
def Crawler.execute_request (c : Crawler) (name : String) (payload : Payload) :
    CrawlerRequest :=
  let responses :=
    (accounts_and_regions c.regions c.accounts).map (run_payload_in_account payload)
  { name := name, responses := responses,
    errors := responses.any (fun r => r.exc_info.isSome) }

/-- Model of `Crawler.execute`: run the payload over all targets; if any response
captured a failure, `handle_errors` prints a report and calls
`sys.exit()` (modelled as `none`); otherwise append the request to the
history and return it. -/
def Crawler.execute (c : Crawler) (name : String) (payload : Payload) :
    Option (Crawler × CrawlerRequest) :=
  let request := c.execute_request name payload
  if request.errors then
    none
  else
    some ({ c with requests := c.requests ++ [request] }, request)

/-- Model of `Crawler.get_request`: `next((r for r in self.requests if r.name == name), None)`. -/
def Crawler.get_request (c : Crawler) (name : String) : Option CrawlerRequest :=
  c.requests.find? (fun r => r.name == name)

/-- Model of `CrawlerRequest.handle_errors`, reduced to the data it reports: it
filters the responses that captured a failure, pops the LAST one off that
list as the example to show, and prints a message quoting
`len(errors)` AFTER the pop together with the payload name, then shows
the example exception and exits.  Result: `(reported count, payload name,
example exception)`; `none` when no response failed (Python would raise
`IndexError` on the `pop`). -/
def CrawlerRequest.handle_errors (req : CrawlerRequest) :
    Option (Nat × String × String) :=
  let errors := req.responses.filter (fun r => r.exc_info.isSome)
  match errors.getLast? with
  | none => none
  | some popped =>
      some (errors.dropLast.length, req.name, popped.exc_info.getD "")

/-- Outcome of one account's `load_credentials(access_role)` call
(external collaborator): success, a `botocore` `ClientError` carrying a
provider error code, or any other exception (its identity abstracted as
a string). -/
inductive CredResult
  | ok
  | clientError (code : String)
  | otherExc (e : String)
  deriving DecidableEq, Repr

/-- The message formatted for a `ClientError` in
`load_account_credentials`:
`'cannot assume role {role} in account {name}: {code}'`. -/
def cred_error_msg (role : String) (account : OrgAccount) (code : String) :
    String :=
  "cannot assume role " ++ role ++ " in account " ++ account.name ++ ": " ++ code

/-- Result of `Crawler.load_account_credentials`: normal return,
`sys.exit(msg)`, or a re-raised original exception. -/
inductive LoadResult
  | ok
  | exit (msg : String)
  | raised (e : String)
  deriving DecidableEq, Repr

/-- One worker of `load_account_credentials` acting on the shared
`(crawler.error, crawler.exc_info)` state: a `ClientError` overwrites
`error` with the formatted message, any other exception overwrites
`exc_info`. -/
def cred_step (role : String) (loader : OrgAccount → CredResult)
    (st : Option String × Option String) (account : OrgAccount) :
    Option String × Option String :=
  match loader account with
  | .ok => st
  | .clientError code => (some (cred_error_msg role account code), st.2)
  | .otherExc e => (st.1, some e)

/-- Model of `Crawler.load_account_credentials`: run one worker per account (the
queue is modelled sequentially), then `sys.exit(self.error)` if an
authorization error was recorded, else re-raise a recorded unexpected
exception with its original identity, else return normally.  (`if
self.error:` is a truthiness test in Python; the recorded message is
never empty, so `isSome` is faithful.) -/
def load_account_credentials (role : String) (loader : OrgAccount → CredResult)
    (accounts : List OrgAccount) : LoadResult :=
  let st := accounts.foldl (cred_step role loader) (none, none)
  match st.1 with
  | some msg => .exit msg
  | none =>
      match st.2 with
      | some e => .raised e
      | none => .ok

/-- A concrete region universe for witnesses and counterexamples (the real
`all_regions` comes from AWS at run time and is a parameter everywhere
else). -/
def demoAllRegions : List String := ["us-east-1", "us-west-2", "eu-west-1"]

/-- A concrete organization for witnesses: lookup by name builds the
account, lookup by object returns it. -/
def demoOrg : Org :=
  { access_role := "admin",
    accounts := [{ name := "acct1" }, { name := "acct2" }],
    get_account := fun r => match r with
      | .byName s => { name := s }
      | .byAcct a => a }

/-- A payload that always succeeds. -/
def okPayload : Payload := fun region account => .ok (region ++ "/" ++ account.name)

/-- A payload that raises in the account named `bad`. -/
def badPayload : Payload := fun region account =>
  if account.name = "bad" then .error "boom" else .ok region

/-- A crawler with two accounts and three regions. -/
def demoCrawler : Crawler :=
  { access_role := "admin",
    accounts := [{ name := "a1" }, { name := "a2" }],
    regions := demoAllRegions,
    requests := [] }

/-- A crawler whose first account makes `badPayload` raise. -/
def failCrawler : Crawler :=
  { access_role := "admin",
    accounts := [{ name := "bad" }, { name := "good" }],
    regions := ["us-east-1"],
    requests := [] }

/-- A credential loader where the account named `locked` fails with a
`ClientError` carrying code `AccessDenied`. -/
def lockedLoader : OrgAccount → CredResult := fun a =>
  if a.name = "locked" then .clientError "AccessDenied" else .ok

/-- A credential loader where the account named `weird` fails with an
unexpected exception. -/
def weirdLoader : OrgAccount → CredResult := fun a =>
  if a.name = "weird" then .otherExc "TypeError: nope" else .ok

/-- C2, counterexample: `update_regions` with the empty list returns the
empty list, not `[DEFAULT_REGION]` — the `or` fall-back exists only in
`__init__`, and `validate_regions` accepts `[]`. -/
theorem c2_counterexample :
    update_regions demoAllRegions (RegionsVal.list []) = Except.ok [] ∧
    update_regions demoAllRegions (RegionsVal.list []) ≠
      Except.ok [DEFAULT_REGION] := by
  refine ⟨rfl, fun h => ?_⟩
  have e : update_regions demoAllRegions (RegionsVal.list []) =
      Except.ok ([] : List String) := rfl
  rw [e] at h
  simp [DEFAULT_REGION] at h

/-- C2 (amended): calling `update_regions` with an empty list is accepted
without error and leaves the `regions` attribute equal to the empty list;
no fall-back to `[DEFAULT_REGION]` happens on update. -/
theorem c2_amended_empty_update (all_regions : List String) :
    update_regions all_regions (RegionsVal.list []) = Except.ok [] := rfl

/-- C3, counterexample: `update_regions` with the LIST `["GLOBAL"]` raises
`ValueError('Invalid regions: GLOBAL')` instead of producing
`[DEFAULT_REGION]`; only the bare string compares equal to `'GLOBAL'`. -/
theorem c3_counterexample :
    update_regions demoAllRegions (RegionsVal.list ["GLOBAL"]) =
      Except.error "Invalid regions: GLOBAL" ∧
    update_regions demoAllRegions (RegionsVal.list ["GLOBAL"]) ≠
      Except.ok [DEFAULT_REGION] := by
  refine ⟨rfl, fun h => ?_⟩
  have e : update_regions demoAllRegions (RegionsVal.list ["GLOBAL"]) =
      Except.error "Invalid regions: GLOBAL" := rfl
  rw [e] at h
  exact Except.noConfusion h

/-- C3 (amended): the pseudo-region is recognized only as the bare string
`"GLOBAL"`: construction with `regions="GLOBAL"` and
`update_regions("GLOBAL")` both yield exactly `[DEFAULT_REGION]`, while
`update_regions(["GLOBAL"])` raises `ValueError` listing `GLOBAL` as an
invalid region. -/
theorem c3_amended_global_string (all_regions : List String)
    (h : "GLOBAL" ∉ all_regions) :
    crawler_init_regions all_regions (RegionsArg.str "GLOBAL") =
      Except.ok [DEFAULT_REGION] ∧
    update_regions all_regions (RegionsVal.str "GLOBAL") =
      Except.ok [DEFAULT_REGION] ∧
    update_regions all_regions (RegionsVal.list ["GLOBAL"]) =
      Except.error "Invalid regions: GLOBAL" := by
  refine ⟨rfl, rfl, ?_⟩
  simp only [update_regions, validate_regions, h]
  simp [h]
  rfl

/-- C3, witness for the amended statement at a concrete region universe. -/
theorem c3_amended_global_string_witness :
    crawler_init_regions demoAllRegions (RegionsArg.str "GLOBAL") =
      Except.ok [DEFAULT_REGION] ∧
    update_regions demoAllRegions (RegionsVal.str "GLOBAL") =
      Except.ok [DEFAULT_REGION] ∧
    update_regions demoAllRegions (RegionsVal.list ["GLOBAL"]) =
      Except.error "Invalid regions: GLOBAL" :=
  c3_amended_global_string demoAllRegions (by decide)

/-- C9: a fresh timer's `stop` is a no-op (no exception, `elapsed_time`
stays `None`), and `start` followed by `stop` under a monotone positive
clock yields a non-negative `elapsed_time`. -/
theorem c9_timer_behaviour (now t1 t2 : Int) (h1 : 0 < t1) (h2 : t1 ≤ t2) :
    CrawlerTimer.init.stop now = CrawlerTimer.init ∧
    (CrawlerTimer.init.stop now).elapsed_time = none ∧
    ∃ e, ((CrawlerTimer.init.start t1).stop t2).elapsed_time = some e ∧
      0 ≤ e := by
  refine ⟨rfl, rfl, t2 - t1, ?_, by omega⟩
  have ht : t1 ≠ 0 := by omega
  simp [CrawlerTimer.init, CrawlerTimer.start, CrawlerTimer.stop, ht]

/-- C9, witness: concrete clock readings 1 and 2 (and a stray `stop` at
5 on a fresh timer). -/
theorem c9_timer_behaviour_witness :
    CrawlerTimer.init.stop 5 = CrawlerTimer.init ∧
    (CrawlerTimer.init.stop 5).elapsed_time = none ∧
    ∃ e, ((CrawlerTimer.init.start 1).stop 2).elapsed_time = some e ∧
      0 ≤ e :=
  c9_timer_behaviour 5 1 2 (by decide) (by decide)

/-- C10: an explicit empty `accounts` or `regions` list is falsy in the
`or` fall-back of `__init__`, so it behaves exactly like an omitted
argument: all organization accounts, resp. all known regions, and no
`ValueError`. -/
theorem c10_empty_args_default (org : Org) (all_regions : List String) :
    crawler_init_accounts org (AccountsArg.list []) =
      crawler_init_accounts org AccountsArg.omitted ∧
    crawler_init_regions all_regions (RegionsArg.list []) =
      crawler_init_regions all_regions RegionsArg.omitted ∧
    crawler_init_regions all_regions (RegionsArg.list []) =
      Except.ok all_regions ∧
    crawler_init_accounts org (AccountsArg.list []) =
      org.accounts.map (fun a => org.get_account (AcctRef.byAcct a)) := by
  refine ⟨rfl, rfl, ?_, ?_⟩
  · have hf : (all_regions.filter (fun r => decide (r ∉ all_regions))) = [] := by
      simp
    simp [crawler_init_regions, regions_or_default, validate_regions, hf]
  · simp [crawler_init_accounts, accounts_or_default, validate_accounts,
      List.map_map, Function.comp]

/-- C5: any unknown region string — given bare or inside a list — makes
`validate_regions` raise `ValueError` synchronously, and the message
lists exactly the invalid regions given (comma-joined, in order). -/
theorem c5_invalid_regions_error (all_regions : List String) (s : String)
    (l : List String) (hs1 : s ≠ "GLOBAL") (hs2 : s ∉ all_regions)
    (hl : l.filter (fun r => decide (r ∉ all_regions)) ≠ []) :
    update_regions all_regions (RegionsVal.str s) =
      Except.error ("Invalid regions: " ++ s) ∧
    crawler_init_regions all_regions (RegionsArg.list l) =
      Except.error ("Invalid regions: "
        ++ ", ".intercalate (l.filter (fun r => decide (r ∉ all_regions)))) := by
  constructor
  · have hi : ", ".intercalate [s] = s := rfl
    simp only [update_regions, validate_regions]
    simp [hs1, hs2, hi]
  · have hne : l ≠ [] := by
      intro h
      rw [h] at hl
      exact hl rfl
    have h1 : regions_or_default all_regions (RegionsArg.list l) =
        RegionsVal.list l := by
      simp [regions_or_default, hne]
    have h2 : validate_regions all_regions (RegionsVal.list l) =
        Except.error ("Invalid regions: "
          ++ ", ".intercalate (l.filter (fun r => decide (r ∉ all_regions)))) := by
      simp only [validate_regions]
      rw [if_neg (by simp), if_neg hl]
    rw [crawler_init_regions, h1, h2]

/-- C5, witness: `mars-west-1` alone and mixed with valid regions. -/
theorem c5_invalid_regions_error_witness :
    update_regions demoAllRegions (RegionsVal.str "mars-west-1") =
      Except.error ("Invalid regions: " ++ "mars-west-1") ∧
    crawler_init_regions demoAllRegions
        (RegionsArg.list ["mars-west-1", "us-east-1", "mars-east-2"]) =
      Except.error ("Invalid regions: "
        ++ ", ".intercalate (["mars-west-1", "us-east-1", "mars-east-2"].filter
            (fun r => decide (r ∉ demoAllRegions)))) :=
  c5_invalid_regions_error demoAllRegions "mars-west-1"
    ["mars-west-1", "us-east-1", "mars-east-2"] (by decide) (by decide) (by decide)

/-- C7: a bare string resolves to the one-element list of its account
lookup; a list resolves every entry independently, in order. -/
theorem c7_accounts_resolution (org : Org) (s : String) (l : List AcctRef)
    (hs : s ≠ "") (hl : l ≠ []) :
    crawler_init_accounts org (AccountsArg.str s) =
      [org.get_account (AcctRef.byName s)] ∧
    crawler_init_accounts org (AccountsArg.list l) = l.map org.get_account := by
  constructor <;>
    simp [crawler_init_accounts, accounts_or_default, validate_accounts, hs, hl]

/-- C7, witness: the name `prod` and a two-element mixed list. -/
theorem c7_accounts_resolution_witness :
    crawler_init_accounts demoOrg (AccountsArg.str "prod") =
      [demoOrg.get_account (AcctRef.byName "prod")] ∧
    crawler_init_accounts demoOrg
        (AccountsArg.list [AcctRef.byName "a", AcctRef.byAcct { name := "acct2" }]) =
      [AcctRef.byName "a", AcctRef.byAcct { name := "acct2" }].map
        demoOrg.get_account :=
  c7_accounts_resolution demoOrg "prod"
    [AcctRef.byName "a", AcctRef.byAcct { name := "acct2" }] (by decide) (by decide)

/-- Generator-style first match equals the head of the filtered list. -/
theorem find?_eq_head?_filter {α : Type} (p : α → Bool) (l : List α) :
    l.find? p = (l.filter p).head? := by
  induction l with
  | nil => rfl
  | cons a l ih =>
    cases h : p a
    · rw [List.find?_cons_of_neg _ (by simp [h]),
        List.filter_cons_of_neg (by simp [h]), ih]
    · rw [List.find?_cons_of_pos _ h, List.filter_cons_of_pos h,
        List.head?_cons]

/-- C8: `get_request` returns the first request (in append order) whose
name matches, and `None` exactly when no request in the history has that
name. -/
theorem c8_get_request_first_match (c : Crawler) (name : String) :
    c.get_request name =
      (c.requests.filter (fun r => r.name == name)).head? ∧
    (c.get_request name = none ↔ ∀ r ∈ c.requests, r.name ≠ name) := by
  constructor
  · exact find?_eq_head?_filter _ _
  · simp [Crawler.get_request, List.find?_eq_none]

/-- Length of the cross-product list built by `execute`. -/
theorem accounts_and_regions_length (rs : List String) (as : List OrgAccount) :
    (accounts_and_regions rs as).length = rs.length * as.length := by
  induction rs with
  | nil => simp [accounts_and_regions]
  | cons r rs ih =>
    simp only [accounts_and_regions, List.length_append, List.length_map, ih,
      List.length_cons]
    ring

/-- Each worker's response keeps its target's region and account. -/
theorem run_payload_key (p : Payload) (t : String × OrgAccount) :
    ((run_payload_in_account p t).region, (run_payload_in_account p t).account)
      = t := by
  cases h : p t.1 t.2 <;> simp [run_payload_in_account, h]

/-- Mapping the workers over the targets and projecting back the
(region, account) keys is the identity on the target list. -/
theorem map_key_run (p : Payload) (ts : List (String × OrgAccount)) :
    (ts.map (run_payload_in_account p)).map
      (fun resp => (resp.region, resp.account)) = ts := by
  induction ts with
  | nil => rfl
  | cons t ts ih => simp [ih, run_payload_key]

/-- C1: one `execute` call produces exactly
`|accounts| * |regions|` responses, one per (region, account) pair of the
cross product (keys of the responses are exactly the cross-product
list). -/
theorem c1_execute_cross_product (c : Crawler) (name : String)
    (payload : Payload) (_ha : c.accounts ≠ []) (_hr : c.regions ≠ []) :
    (c.execute_request name payload).responses.length =
      c.accounts.length * c.regions.length ∧
    (c.execute_request name payload).responses.map
        (fun resp => (resp.region, resp.account)) =
      accounts_and_regions c.regions c.accounts := by
  constructor
  · simp only [Crawler.execute_request, List.length_map]
    rw [accounts_and_regions_length, Nat.mul_comm]
  · simp only [Crawler.execute_request]
    exact map_key_run payload _

/-- C1, witness: two accounts and three regions give six responses. -/
theorem c1_execute_cross_product_witness :
    (demoCrawler.execute_request "p" okPayload).responses.length =
      demoCrawler.accounts.length * demoCrawler.regions.length ∧
    (demoCrawler.execute_request "p" okPayload).responses.map
        (fun resp => (resp.region, resp.account)) =
      accounts_and_regions demoCrawler.regions demoCrawler.accounts :=
  c1_execute_cross_product demoCrawler "p" okPayload (by decide) (by decide)

/-- C4, code bug: with exactly one failed response, `execute` does set the
`errors` flag, but `handle_errors` pops the example failure off the error
list BEFORE taking `len(errors)`, so the printed count is `0` — one less
than the number of responses that captured a failure. -/
theorem c4_handle_errors_undercount :
    (failCrawler.execute_request "pay" badPayload).errors = true ∧
    ((failCrawler.execute_request "pay" badPayload).responses.filter
        (fun r => r.exc_info.isSome)).length = 1 ∧
    (failCrawler.execute_request "pay" badPayload).handle_errors =
      some (0, "pay", "boom") :=
  ⟨rfl, rfl, rfl⟩

/-- State of `(crawler.error, crawler.exc_info)` after the credential
workers ran: either no worker hit a `ClientError` and `error` is
untouched, or `error` holds the formatted message of some account whose
loader raised a `ClientError`. -/
theorem cred_fold_fst (role : String) (loader : OrgAccount → CredResult)
    (accounts : List OrgAccount) :
    ∀ init : Option String × Option String,
    ((accounts.foldl (cred_step role loader) init).1 = init.1 ∧
      ∀ a ∈ accounts, ∀ code, loader a ≠ .clientError code) ∨
    (∃ a ∈ accounts, ∃ code, loader a = .clientError code ∧
      (accounts.foldl (cred_step role loader) init).1 =
        some (cred_error_msg role a code)) := by
  induction accounts with
  | nil =>
    intro init
    left
    exact ⟨rfl, by simp⟩
  | cons a as ih =>
    intro init
    simp only [List.foldl_cons]
    rcases h : loader a with _ | code | e
    · have hstep : cred_step role loader init a = init := by
        simp [cred_step, h]
      rw [hstep]
      rcases ih init with ⟨h1, h2⟩ | ⟨b, hb, c, hc, h1⟩
      · left
        refine ⟨h1, fun x hx c hcl => ?_⟩
        rcases List.mem_cons.mp hx with rfl | hx
        · rw [h] at hcl
          exact CredResult.noConfusion hcl
        · exact h2 x hx c hcl
      · right
        exact ⟨b, List.mem_cons_of_mem a hb, c, hc, h1⟩
    · have hstep : cred_step role loader init a =
          (some (cred_error_msg role a code), init.2) := by
        simp [cred_step, h]
      rw [hstep]
      rcases ih (some (cred_error_msg role a code), init.2) with
        ⟨h1, _⟩ | ⟨b, hb, c, hc, h1⟩
      · right
        exact ⟨a, List.mem_cons_self a as, code, h, h1⟩
      · right
        exact ⟨b, List.mem_cons_of_mem a hb, c, hc, h1⟩
    · have hstep : cred_step role loader init a = (init.1, some e) := by
        simp [cred_step, h]
      rw [hstep]
      rcases ih (init.1, some e) with ⟨h1, h2⟩ | ⟨b, hb, c, hc, h1⟩
      · left
        refine ⟨h1, fun x hx c hcl => ?_⟩
        rcases List.mem_cons.mp hx with rfl | hx
        · rw [h] at hcl
          exact CredResult.noConfusion hcl
        · exact h2 x hx c hcl
      · right
        exact ⟨b, List.mem_cons_of_mem a hb, c, hc, h1⟩

/-- Companion to `cred_fold_fst` for the second component
(`crawler.exc_info`): untouched, or the original exception of some
account whose loader raised something other than a `ClientError`. -/
theorem cred_fold_snd (role : String) (loader : OrgAccount → CredResult)
    (accounts : List OrgAccount) :
    ∀ init : Option String × Option String,
    ((accounts.foldl (cred_step role loader) init).2 = init.2 ∧
      ∀ a ∈ accounts, ∀ e, loader a ≠ .otherExc e) ∨
    (∃ a ∈ accounts, ∃ e, loader a = .otherExc e ∧
      (accounts.foldl (cred_step role loader) init).2 = some e) := by
  induction accounts with
  | nil =>
    intro init
    left
    exact ⟨rfl, by simp⟩
  | cons a as ih =>
    intro init
    simp only [List.foldl_cons]
    rcases h : loader a with _ | code | e
    · have hstep : cred_step role loader init a = init := by
        simp [cred_step, h]
      rw [hstep]
      rcases ih init with ⟨h1, h2⟩ | ⟨b, hb, e2, he2, h1⟩
      · left
        refine ⟨h1, fun x hx e2 hcl => ?_⟩
        rcases List.mem_cons.mp hx with rfl | hx
        · rw [h] at hcl
          exact CredResult.noConfusion hcl
        · exact h2 x hx e2 hcl
      · right
        exact ⟨b, List.mem_cons_of_mem a hb, e2, he2, h1⟩
    · have hstep : cred_step role loader init a =
          (some (cred_error_msg role a code), init.2) := by
        simp [cred_step, h]
      rw [hstep]
      rcases ih (some (cred_error_msg role a code), init.2) with
        ⟨h1, h2⟩ | ⟨b, hb, e2, he2, h1⟩
      · left
        refine ⟨h1, fun x hx e2 hcl => ?_⟩
        rcases List.mem_cons.mp hx with rfl | hx
        · rw [h] at hcl
          exact CredResult.noConfusion hcl
        · exact h2 x hx e2 hcl
      · right
        exact ⟨b, List.mem_cons_of_mem a hb, e2, he2, h1⟩
    · have hstep : cred_step role loader init a = (init.1, some e) := by
        simp [cred_step, h]
      rw [hstep]
      rcases ih (init.1, some e) with ⟨h1, _⟩ | ⟨b, hb, e2, he2, h1⟩
      · right
        exact ⟨a, List.mem_cons_self a as, e, h, h1⟩
      · right
        exact ⟨b, List.mem_cons_of_mem a hb, e2, he2, h1⟩

/-- C6: if some account's credential call fails with a `ClientError`, the
whole call exits the process with the formatted message naming the access
role, that account, and the provider error code; if no `ClientError`
occurred but some account raised an unexpected exception, that original
exception is re-raised (unwrapped) after all workers ran. -/
theorem c6_load_credentials_failure_policy (role : String)
    (loader : OrgAccount → CredResult) (accounts : List OrgAccount) :
    ((∃ a ∈ accounts, ∃ code, loader a = .clientError code) →
      ∃ a ∈ accounts, ∃ code, loader a = .clientError code ∧
        load_account_credentials role loader accounts =
          .exit (cred_error_msg role a code)) ∧
    ((∀ a ∈ accounts, ∀ code, loader a ≠ .clientError code) →
      (∃ a ∈ accounts, ∃ e, loader a = .otherExc e) →
      ∃ a ∈ accounts, ∃ e, loader a = .otherExc e ∧
        load_account_credentials role loader accounts = .raised e) := by
  constructor
  · rintro ⟨a, ha, code, hcode⟩
    rcases cred_fold_fst role loader accounts (none, none) with
      ⟨_, h2⟩ | ⟨b, hb, c, hc, h1⟩
    · exact absurd hcode (h2 a ha code)
    · refine ⟨b, hb, c, hc, ?_⟩
      simp [load_account_credentials, h1]
  · rintro hnone ⟨a, ha, e, he⟩
    rcases cred_fold_fst role loader accounts (none, none) with
      ⟨h1, _⟩ | ⟨b, hb, c, hc, _⟩
    · rcases cred_fold_snd role loader accounts (none, none) with
        ⟨_, h3⟩ | ⟨b, hb, e2, he2, h2⟩
      · exact absurd he (h3 a ha e)
      · refine ⟨b, hb, e2, he2, ?_⟩
        simp [load_account_credentials, h1, h2]
    · exact absurd hc (hnone b hb c)

/-- C6, witness: one run where account `locked` hits a `ClientError`
(process exit with the formatted message) and one run where account
`weird` raises an unexpected exception (re-raised as-is). -/
theorem c6_load_credentials_failure_policy_witness :
    (∃ a ∈ ([{ name := "ok1" }, { name := "locked" }] : List OrgAccount),
      ∃ code, lockedLoader a = .clientError code ∧
        load_account_credentials "admin" lockedLoader
          [{ name := "ok1" }, { name := "locked" }] =
          .exit (cred_error_msg "admin" a code)) ∧
    (∃ a ∈ ([{ name := "ok1" }, { name := "weird" }] : List OrgAccount),
      ∃ e, weirdLoader a = .otherExc e ∧
        load_account_credentials "admin" weirdLoader
          [{ name := "ok1" }, { name := "weird" }] = .raised e) :=
  ⟨(c6_load_credentials_failure_policy "admin" lockedLoader
      [{ name := "ok1" }, { name := "locked" }]).1
      ⟨{ name := "locked" }, by decide, "AccessDenied", by decide⟩,
   (c6_load_credentials_failure_policy "admin" weirdLoader
      [{ name := "ok1" }, { name := "weird" }]).2
      (by
        intro a _ code hcl
        revert hcl
        unfold weirdLoader
        split <;> simp)
      ⟨{ name := "weird" }, by decide, "TypeError: nope", by decide⟩⟩
